import Mathlib

/-!
Shallow embedding of the transformer data-preparation and training-loop code
(`dataset.py`, `train.py`).  Tensors of token ids are modelled as `List Nat`;
the integer 0/1 mask tensors are modelled as nested `List Nat` with the
leading broadcast dimensions kept explicit.  Python's fallible `__getitem__`
is modelled with `Except`.
-/

namespace Transformer

/-- A tokenizer as the dataset consumes it: `encode` yields the ordered list
of token ids of a text (`tokenizer.encode(text).ids`), `tokenToId` resolves a
special token string to its id (`tokenizer.token_to_id`). -/
structure Tokenizer where
  encode : String → List Nat
  tokenToId : String → Nat

/-- `BilingualDataset.__init__`: stores the corpus, both tokenizers, the two
language keys and `seq_len`; the three special ids are all resolved from
`tokenizer_tgt` (dataset.py lines 17-19).  A raw corpus item is modelled by
its `translation` dict, a map from language key to text. -/
structure BilingualDataset where
  ds : List (String → String)
  tokenizerSrc : Tokenizer
  tokenizerTgt : Tokenizer
  srcLang : String
  tgtLang : String
  seqLen : Nat
  sosToken : Nat
  eosToken : Nat
  padToken : Nat

def mkBilingualDataset (ds : List (String → String)) (tokenizerSrc tokenizerTgt : Tokenizer)
    (srcLang tgtLang : String) (seqLen : Nat) : BilingualDataset :=
  { ds := ds
    tokenizerSrc := tokenizerSrc
    tokenizerTgt := tokenizerTgt
    srcLang := srcLang
    tgtLang := tgtLang
    seqLen := seqLen
    sosToken := tokenizerTgt.tokenToId "[SOS]"
    eosToken := tokenizerTgt.tokenToId "[EOS]"
    padToken := tokenizerTgt.tokenToId "[PAD]" }

/-- dataset.py line 26: `src_text = self.ds[idx]['translation'][self.src_lang]`. -/
def srcTextOf (d : BilingualDataset) (idx : Nat) : String :=
  (d.ds.getD idx (fun _ => "")) d.srcLang

/-- dataset.py line 27: `tgt_text = self.ds[idx]['translation'][self.tgt_lang]`. -/
def tgtTextOf (d : BilingualDataset) (idx : Nat) : String :=
  (d.ds.getD idx (fun _ => "")) d.tgtLang

/-- dataset.py line 29: `enc_input_token = self.tokenizer_src.encode(src_text).ids`. -/
def encInputToken (d : BilingualDataset) (idx : Nat) : List Nat :=
  d.tokenizerSrc.encode (srcTextOf d idx)

/-- dataset.py line 30: `dec_input_token = self.tokenizer_src.encode(tgt_text).ids`.
Note the source really does call `tokenizer_src` here, on the target text. -/
def decInputToken (d : BilingualDataset) (idx : Nat) : List Nat :=
  d.tokenizerSrc.encode (tgtTextOf d idx)

/-- dataset.py lines 80-82: `casual_mask(size)` is
`triu(ones((1,size,size)), diagonal=1) == 0`: a `(1, size, size)` boolean
tensor, kept here as integer 0/1 before the comparison so that the `triu`
step is explicit. -/
def casualMask (size : Nat) : List (List (List Bool)) :=
  [(List.range size).map (fun i => (List.range size).map (fun j =>
    decide ((if i + 1 ≤ j then (1 : Nat) else 0) = 0)))]

/-- dataset.py line 72: `(encoder_input != pad).unsqueeze(0).unsqueeze(0).int()`,
a `(1, 1, seq_len)` integer 0/1 tensor. -/
def encoderMaskOf (encoderInput : List Nat) (pad : Nat) : List (List (List Nat)) :=
  [[encoderInput.map (fun t => if t ≠ pad then (1 : Nat) else 0)]]

/-- dataset.py line 73:
`(decoder_input != pad).unsqueeze(0).int() & casual_mask(decoder_input.size(0))`.
The `(1, seq_len)` non-pad row broadcasts along the query dimension of the
`(1, seq_len, seq_len)` causal mask; `&` is the element-wise bitwise AND after
the boolean mask is promoted to integer. -/
def decoderMaskOf (decoderInput : List Nat) (pad : Nat) : List (List (List Nat)) :=
  let nonpad := decoderInput.map (fun t => if t ≠ pad then (1 : Nat) else 0)
  (casualMask decoderInput.length).map (fun plane =>
    plane.map (fun row =>
      (nonpad.zip row).map (fun p => Nat.land p.1 (if p.2 then 1 else 0))))

/-- The dict returned by `BilingualDataset.__getitem__` (dataset.py lines 69-78). -/
structure EncodedExample where
  encoderInput : List Nat
  decoderInput : List Nat
  encoderMask : List (List (List Nat))
  decoderMask : List (List (List Nat))
  label : List Nat
  srcText : String
  tgtText : String
  deriving DecidableEq

/-- The `ValueError("Sentence to long")` of dataset.py line 36 (the spec's
`SequenceTooLongError`). -/
inductive EncodeError where
  | sentenceTooLong : EncodeError
  deriving DecidableEq

/-- `BilingualDataset.__getitem__` (dataset.py lines 24-78).  The padding
counts are computed as (possibly negative) integers exactly as in the source;
on the non-error path they are the natural numbers `k1`, `k2`.  Each
concatenated tensor is a flat list of ids:
`torch.tensor([pad_token] * k)` extracts the scalar of the one-element
`pad_token` tensor `k` times, giving a flat length-`k` tensor. -/
def getItem (d : BilingualDataset) (idx : Nat) : Except EncodeError EncodedExample :=
  let srcText := srcTextOf d idx
  let tgtText := tgtTextOf d idx
  let encTok := encInputToken d idx
  let decTok := decInputToken d idx
  let encNumPaddingTokens : Int := (d.seqLen : Int) - encTok.length - 2
  let decNumPaddingTokens : Int := (d.seqLen : Int) - decTok.length - 1
  if encNumPaddingTokens < 0 ∨ decNumPaddingTokens < 0 then
    .error .sentenceTooLong
  else
    let encoderInput :=
      [d.sosToken] ++ encTok ++ [d.eosToken] ++
        List.replicate encNumPaddingTokens.toNat d.padToken
    let decoderInput :=
      [d.sosToken] ++ decTok ++ List.replicate decNumPaddingTokens.toNat d.padToken
    let label :=
      decTok ++ [d.eosToken] ++ List.replicate decNumPaddingTokens.toNat d.padToken
    .ok
      { encoderInput := encoderInput
        decoderInput := decoderInput
        encoderMask := encoderMaskOf encoderInput d.padToken
        decoderMask := decoderMaskOf decoderInput d.padToken
        label := label
        srcText := srcText
        tgtText := tgtText }

/-! ## train.py -/

/-- train.py line 41: `train_ds_size = int(0.9 * len(ds_raw))`.  Python's
`int()` truncates toward zero; the double closest to `0.9` is slightly above
`9/10`, so for corpus sizes the product rounds to a double whose floor is
`⌊9n/10⌋`. -/
def trainDsSize (n : Nat) : Nat := (⌊(9 : ℚ) / 10 * n⌋).toNat

/-- train.py line 42: `val_ds_size = len(ds_raw) - train_ds_size`. -/
def valDsSize (n : Nat) : Nat := n - trainDsSize n

/-- Modelled from the spec: `torch.utils.data.random_split` is an external
torch collaborator; per the spec it draws an unseeded random shuffle of the
indices and deals them into consecutive groups of the requested lengths.  The
shuffle is passed explicitly as `perm`. -/
def randomSplit (perm : List Nat) (trainSize : Nat) : List Nat × List Nat :=
  (perm.take trainSize, perm.drop trainSize)

/-- train.py line 43: `random_split(ds_raw, [train_ds_size, val_ds_size])`,
at the level of corpus indices. -/
def getDsSplit (n : Nat) (perm : List Nat) : List Nat × List Nat :=
  randomSplit perm (trainDsSize n)

/-- Big-endian decimal digits of `n` (empty for 0). -/
def digitsBE (n : Nat) : List Nat := (Nat.digits 10 n).reverse

/-- The digit list of Python's `f"{n:02d}"`: decimal digits of `n`,
left-padded with zeros to width two. -/
def fmt02dDigits (n : Nat) : List Nat :=
  let ds := if n = 0 then [0] else digitsBE n
  List.replicate (2 - ds.length) 0 ++ ds

/-- Python's `f"{n:02d}"` as a string. -/
def fmt02d (n : Nat) : String := ((fmt02dDigits n).map Nat.digitChar).asString

/-- Inverse of `Nat.digitChar` on decimal digits. -/
def undigit (c : Char) : Nat := c.toNat - 48

/-- train.py lines 76 and 152: the checkpoint file written at the end of epoch
`epoch` is `Path(f"{datasource}_{model_folder}") / f"{model_basename}{epoch:02d}.pt"`. -/
def ckptFilePath (datasource modelFolder modelBasename : String) (epoch : Nat) : String :=
  datasource ++ "_" ++ modelFolder ++ "/" ++ modelBasename ++ fmt02d epoch ++ ".pt"

/-- The record `torch.save` persists at the end of each epoch (train.py lines
153-158): exactly the four keys `epoch`, `global_step`, `model_state_dict`,
`optimizer_state_dict`.  `globalStep` is an `Option` because the loader
tolerates its absence (`state.get('global_step', 0)`, line 109); the saver
always stores `some`.  Model and optimizer parameter blobs are opaque types
`M`, `O`. -/
structure CheckpointRecord (M O : Type) where
  epoch : Nat
  globalStep : Option Nat
  modelStateDict : M
  optimizerStateDict : O

/-- The mutable training-loop entry state after steps 6-7 of `train_model`. -/
structure TrainInit (M O : Type) where
  initialEpoch : Nat
  globalStep : Nat
  modelParams : M
  optimizerParams : O

/-- train.py lines 94-113: `initial_epoch = 0; global_step = 0`, then, if a
preload was requested and the resolved checkpoint path exists, load the
record and set `initial_epoch = state['epoch'] + 1`,
`global_step = state.get('global_step', 0)`, restoring model and optimizer
state dicts; otherwise keep the fresh defaults.  `ckpt` is the record at the
resolved path (`None` when the path does not exist), `freshM`/`freshO` the
freshly initialized parameters. -/
def trainInit {M O : Type} (preloadRequested : Bool) (ckpt : Option (CheckpointRecord M O))
    (freshM : M) (freshO : O) : TrainInit M O :=
  if preloadRequested then
    match ckpt with
    | some state =>
        { initialEpoch := state.epoch + 1
          globalStep := state.globalStep.getD 0
          modelParams := state.modelStateDict
          optimizerParams := state.optimizerStateDict }
    | none => { initialEpoch := 0, globalStep := 0, modelParams := freshM, optimizerParams := freshO }
  else { initialEpoch := 0, globalStep := 0, modelParams := freshM, optimizerParams := freshO }

/-- train.py line 122: `range(initial_epoch, config['num_epochs'])`. -/
def pyRange (a b : Nat) : List Nat := List.range' a (b - a)

/-- train.py lines 125-149: the batches of one epoch.  The forward pass, loss,
backward pass and optimizer step touch only the external model, abstracted as
`step`; `global_step` increments by one after every batch. -/
def runEpochBatches {M O β : Type} (step : β → M → O → M × O) (batches : List β)
    (s : M × O × Nat) : M × O × Nat :=
  batches.foldl (fun t b =>
    let mo := step b t.1 t.2.1
    (mo.1, mo.2, t.2.2 + 1)) s

/-- train.py lines 122-158: the epoch loop over the given epoch numbers.  Each
epoch runs its batches and then, unconditionally, emits one checkpoint write:
the epoch-numbered file path paired with the saved record. -/
def runEpochs {M O β : Type} (datasource modelFolder modelBasename : String)
    (step : β → M → O → M × O) (batches : List β) :
    List Nat → M → O → Nat → List (String × CheckpointRecord M O)
  | [], _, _, _ => []
  | e :: rest, m, o, gs =>
      let s := runEpochBatches step batches (m, o, gs)
      (ckptFilePath datasource modelFolder modelBasename e,
        { epoch := e, globalStep := some s.2.2, modelStateDict := s.1,
          optimizerStateDict := s.2.1 }) ::
        runEpochs datasource modelFolder modelBasename step batches rest s.1 s.2.1 s.2.2

/-- The sequence of checkpoint writes produced by one `train_model` run that
enters the loop in state `init`. -/
def trainModelWrites {M O β : Type} (datasource modelFolder modelBasename : String)
    (numEpochs : Nat) (step : β → M → O → M × O) (batches : List β)
    (init : TrainInit M O) : List (String × CheckpointRecord M O) :=
  runEpochs datasource modelFolder modelBasename step batches
    (pyRange init.initialEpoch numEpochs) init.modelParams init.optimizerParams init.globalStep

/-- PyTorch label smoothing: the target distribution for class `y` over `C`
classes is `(1-ε)·onehot(y) + ε/C`. -/
def smoothedWeight (ε : ℚ) (C : Nat) (y j : Nat) : ℚ :=
  (1 - ε) * (if j = y then 1 else 0) + ε / C

/-- Modelled from the spec: `torch.nn.CrossEntropyLoss` is an external torch
collaborator; per the spec (§4.5) it is mean-reduced cross-entropy over flat
positions with `ignore_index` and `label_smoothing`.  `logp n j` is the
log-softmax the model assigns to class `j` at flat position `n`, kept abstract
(the spec treats the model as opaque); positions labelled `ignoreIdx` are
excluded from both the sum and the denominator. -/
def crossEntropyMean (ignoreIdx : Nat) (ε : ℚ) (C : Nat) (logp : Nat → Nat → ℚ)
    (labels : List Nat) : ℚ :=
  let kept := labels.enum.filter (fun p => decide (p.2 ≠ ignoreIdx))
  (kept.map (fun p =>
    -(((List.range C).map (fun j => smoothedWeight ε C p.2 j * logp p.1 j)).sum))).sum
    / kept.length

/-- train.py lines 116-119 and 136-139: the loss call of the training loop.
`ignore_index` is `tokenizer_tgt.token_to_id('[PAD]')`, `label_smoothing` is
`0.1`; the `[batch, seq_len]` label tensor is flattened row-major by
`labels.view(-1)` (`List.flatten`) and the logits are reshaped to
`[batch*seq_len, vocab_size]` with `vocab_size = tokenizer_tgt.get_vocab_size()`. -/
def trainLoss (tokenizerTgt : Tokenizer) (vocabSize : Nat) (logp : Nat → Nat → ℚ)
    (labelsBatch : List (List Nat)) : ℚ :=
  crossEntropyMean (tokenizerTgt.tokenToId "[PAD]") (1 / 10) vocabSize logp labelsBatch.flatten

/-! ## Concrete instances used to exercise the definitions -/

/-- A source-language tokenizer whose id assignment differs from the target
tokenizer's on the target text. -/
def vocabSrcEx : Tokenizer :=
  { encode := fun s => if s = "hello" then [4, 5] else if s = "bonjour" then [9] else []
    tokenToId := fun t =>
      if t = "[SOS]" then 21 else if t = "[EOS]" then 22 else if t = "[PAD]" then 20 else 23 }

/-- A target-language tokenizer with special ids SOS=1, EOS=2, PAD=0. -/
def vocabTgtEx : Tokenizer :=
  { encode := fun s => if s = "bonjour" then [6, 7, 8] else []
    tokenToId := fun t =>
      if t = "[SOS]" then 1 else if t = "[EOS]" then 2 else if t = "[PAD]" then 0 else 3 }

/-- One parallel example: `translation = {"en": "hello", "fr": "bonjour"}`. -/
def itemEx : String → String := fun lang => if lang = "fr" then "bonjour" else "hello"

/-- A dataset over `itemEx` with divergent source/target tokenizers. -/
def dsEx : BilingualDataset :=
  mkBilingualDataset [itemEx] vocabSrcEx vocabTgtEx "en" "fr" 10

/-- Source tokenizer realizing the spec's scenario A token ids. -/
def vocabSrcA : Tokenizer :=
  { encode := fun s => if s = "hello" then [4, 5] else if s = "bonjour" then [6, 7, 8] else []
    tokenToId := fun t =>
      if t = "[SOS]" then 11 else if t = "[EOS]" then 12 else if t = "[PAD]" then 10 else 13 }

/-- Scenario A dataset: `seq_len = 10`, source tokens `[4,5]`, target tokens
`[6,7,8]`, SOS=1, EOS=2, PAD=0. -/
def dsA : BilingualDataset :=
  mkBilingualDataset [itemEx] vocabSrcA vocabTgtEx "en" "fr" 10

/-- Scenario A's encoded output. -/
def exA : EncodedExample :=
  { encoderInput := [1, 4, 5, 2, 0, 0, 0, 0, 0, 0]
    decoderInput := [1, 6, 7, 8, 0, 0, 0, 0, 0, 0]
    encoderMask := encoderMaskOf [1, 4, 5, 2, 0, 0, 0, 0, 0, 0] 0
    decoderMask := decoderMaskOf [1, 6, 7, 8, 0, 0, 0, 0, 0, 0] 0
    label := [6, 7, 8, 2, 0, 0, 0, 0, 0, 0]
    srcText := "hello"
    tgtText := "bonjour" }

/-- A boundary dataset: `seq_len = 4` with the same texts, so that
`k1 = 4 - 2 - 2 = 0` and `k2 = 4 - 3 - 1 = 0`. -/
def dsB : BilingualDataset :=
  mkBilingualDataset [itemEx] vocabSrcA vocabTgtEx "en" "fr" 4

/-- An over-long dataset: `seq_len = 3` makes the source side overflow. -/
def dsC : BilingualDataset :=
  mkBilingualDataset [itemEx] vocabSrcA vocabTgtEx "en" "fr" 3

/-! ## Helper lemmas -/

theorem getD_map_of_lt {α β : Type} (l : List α) (f : α → β) (i : Nat) (d : β) (d' : α)
    (h : i < l.length) : (l.map f).getD i d = f (l.getD i d') := by
  rw [List.getD_eq_getElem?_getD, List.getElem?_map, List.getElem?_eq_getElem h,
    List.getD_eq_getElem?_getD, List.getElem?_eq_getElem h]
  rfl

theorem getD_range_of_lt (n i d : Nat) (h : i < n) : (List.range n).getD i d = i := by
  rw [List.getD_eq_getElem?_getD, List.getElem?_range h]
  rfl

theorem getD_zip_of_lt {α β : Type} (l1 : List α) (l2 : List β) (i : Nat) (da : α) (db : β)
    (h1 : i < l1.length) (h2 : i < l2.length) :
    (l1.zip l2).getD i (da, db) = (l1.getD i da, l2.getD i db) := by
  have hlen : i < (l1.zip l2).length := by
    rw [List.length_zip]; omega
  rw [List.getD_eq_getElem?_getD, List.getElem?_eq_getElem hlen, List.getElem_zip,
    List.getD_eq_getElem?_getD, List.getD_eq_getElem?_getD,
    List.getElem?_eq_getElem h1, List.getElem?_eq_getElem h2]
  rfl

theorem getD_append3_replicate (a : Nat) (l : List Nat) (b pad k j : Nat)
    (hjlo : l.length + 2 ≤ j) (hjhi : j < l.length + 2 + k) :
    ([a] ++ l ++ [b] ++ List.replicate k pad).getD j 0 = pad := by
  rw [List.getD_append_right ([a] ++ l ++ [b]) _ 0 j (by simp; omega)]
  rw [List.getD_eq_getElem?_getD, List.getElem?_replicate, if_pos (by simp; omega)]
  rfl

theorem encoderMaskOf_entry (l : List Nat) (pad : Nat) (j : Nat) (h : j < l.length) :
    (((encoderMaskOf l pad).getD 0 []).getD 0 []).getD j 0
      = if l.getD j 0 ≠ pad then 1 else 0 := by
  show (l.map (fun t => if t ≠ pad then (1 : Nat) else 0)).getD j 0 = _
  rw [getD_map_of_lt l _ j 0 0 h]

theorem decoderMaskOf_entry (l : List Nat) (pad : Nat) (i j : Nat)
    (hi : i < l.length) (hj : j < l.length) :
    (((decoderMaskOf l pad).getD 0 []).getD i []).getD j 0
      = if l.getD j 0 ≠ pad ∧ j ≤ i then 1 else 0 := by
  have hnp : (l.map (fun t => if t ≠ pad then (1 : Nat) else 0)).length = l.length := by
    simp
  have hrow : ∀ i' : Nat,
      ((List.range l.length).map (fun j' =>
        decide ((if i' + 1 ≤ j' then (1 : Nat) else 0) = 0))).length = l.length := by
    simp
  show ((((casualMask l.length).map _).getD 0 []).getD i []).getD j 0 = _
  unfold casualMask
  simp only [List.map_cons, List.map_nil, List.getD_cons_zero, List.map_map]
  rw [getD_map_of_lt _ _ i [] 0 (by simp [hi])]
  rw [getD_range_of_lt _ i 0 hi]
  simp only [Function.comp_apply]
  rw [getD_map_of_lt _ _ j 0 (0, false)
    (by rw [List.length_zip, hnp, hrow]; omega)]
  rw [getD_zip_of_lt _ _ j 0 false (by rw [hnp]; exact hj) (by rw [hrow]; exact hj)]
  rw [getD_map_of_lt l _ j 0 0 hj]
  rw [getD_map_of_lt _ _ j false 0 (by simp [hj])]
  rw [getD_range_of_lt _ j 0 hj]
  by_cases hp : l.getD j 0 ≠ pad <;> by_cases hij : j ≤ i
  · rw [if_pos hp, if_neg (show ¬ i + 1 ≤ j by omega), if_pos (And.intro hp hij)]
    rfl
  · rw [if_pos hp, if_pos (show i + 1 ≤ j by omega),
      if_neg (show ¬ (l.getD j 0 ≠ pad ∧ j ≤ i) from fun h => hij h.2)]
    rfl
  · rw [if_neg hp, if_neg (show ¬ i + 1 ≤ j by omega),
      if_neg (show ¬ (l.getD j 0 ≠ pad ∧ j ≤ i) from fun h => hp h.1)]
    rfl
  · rw [if_neg hp, if_pos (show i + 1 ≤ j by omega),
      if_neg (show ¬ (l.getD j 0 ≠ pad ∧ j ≤ i) from fun h => hp h.1)]
    rfl

/-- On in-budget inputs `__getitem__` succeeds and returns exactly the
concatenations of dataset.py lines 38-78, with the padding counts as natural
numbers. -/
theorem getItem_ok_eq (d : BilingualDataset) (idx : Nat)
    (h1 : (encInputToken d idx).length + 2 ≤ d.seqLen)
    (h2 : (decInputToken d idx).length + 1 ≤ d.seqLen) :
    getItem d idx = Except.ok
      { encoderInput := [d.sosToken] ++ encInputToken d idx ++ [d.eosToken] ++
          List.replicate (d.seqLen - (encInputToken d idx).length - 2) d.padToken
        decoderInput := [d.sosToken] ++ decInputToken d idx ++
          List.replicate (d.seqLen - (decInputToken d idx).length - 1) d.padToken
        encoderMask := encoderMaskOf ([d.sosToken] ++ encInputToken d idx ++ [d.eosToken] ++
          List.replicate (d.seqLen - (encInputToken d idx).length - 2) d.padToken) d.padToken
        decoderMask := decoderMaskOf ([d.sosToken] ++ decInputToken d idx ++
          List.replicate (d.seqLen - (decInputToken d idx).length - 1) d.padToken) d.padToken
        label := decInputToken d idx ++ [d.eosToken] ++
          List.replicate (d.seqLen - (decInputToken d idx).length - 1) d.padToken
        srcText := srcTextOf d idx
        tgtText := tgtTextOf d idx } := by
  have e1 : ((d.seqLen : Int) - (encInputToken d idx).length - 2).toNat
      = d.seqLen - (encInputToken d idx).length - 2 := by omega
  have e2 : ((d.seqLen : Int) - (decInputToken d idx).length - 1).toNat
      = d.seqLen - (decInputToken d idx).length - 1 := by omega
  unfold getItem
  dsimp only
  rw [if_neg (show ¬ ((d.seqLen : Int) - (encInputToken d idx).length - 2 < 0
      ∨ (d.seqLen : Int) - (decInputToken d idx).length - 1 < 0) by
    simp only [not_or, not_lt]
    constructor <;> omega)]
  rw [e1, e2]

/-- `__getitem__` raises `ValueError("Sentence to long")` exactly when one of
the two padding budgets is negative. -/
theorem getItem_error_iff (d : BilingualDataset) (idx : Nat) :
    getItem d idx = Except.error EncodeError.sentenceTooLong
      ↔ d.seqLen < (encInputToken d idx).length + 2
        ∨ d.seqLen < (decInputToken d idx).length + 1 := by
  unfold getItem
  dsimp only
  by_cases h : ((d.seqLen : Int) - (encInputToken d idx).length - 2 < 0
      ∨ (d.seqLen : Int) - (decInputToken d idx).length - 1 < 0)
  · rw [if_pos h]
    constructor
    · intro _
      omega
    · intro _
      rfl
  · rw [if_neg h]
    constructor
    · intro hcontra
      exact absurd hcontra (by simp)
    · intro hcond
      exact absurd hcond (by omega)

/-- Successful `__getitem__` results are exactly the records of
`getItem_ok_eq`, and success implies both length budgets hold. -/
theorem getItem_ok_inv (d : BilingualDataset) (idx : Nat) (ex : EncodedExample)
    (hok : getItem d idx = Except.ok ex) :
    (encInputToken d idx).length + 2 ≤ d.seqLen
    ∧ (decInputToken d idx).length + 1 ≤ d.seqLen
    ∧ ex =
      { encoderInput := [d.sosToken] ++ encInputToken d idx ++ [d.eosToken] ++
          List.replicate (d.seqLen - (encInputToken d idx).length - 2) d.padToken
        decoderInput := [d.sosToken] ++ decInputToken d idx ++
          List.replicate (d.seqLen - (decInputToken d idx).length - 1) d.padToken
        encoderMask := encoderMaskOf ([d.sosToken] ++ encInputToken d idx ++ [d.eosToken] ++
          List.replicate (d.seqLen - (encInputToken d idx).length - 2) d.padToken) d.padToken
        decoderMask := decoderMaskOf ([d.sosToken] ++ decInputToken d idx ++
          List.replicate (d.seqLen - (decInputToken d idx).length - 1) d.padToken) d.padToken
        label := decInputToken d idx ++ [d.eosToken] ++
          List.replicate (d.seqLen - (decInputToken d idx).length - 1) d.padToken
        srcText := srcTextOf d idx
        tgtText := tgtTextOf d idx } := by
  by_cases h : ((d.seqLen : Int) - (encInputToken d idx).length - 2 < 0
      ∨ (d.seqLen : Int) - (decInputToken d idx).length - 1 < 0)
  · exfalso
    have herr : getItem d idx = Except.error EncodeError.sentenceTooLong := by
      unfold getItem
      dsimp only
      rw [if_pos h]
    rw [herr] at hok
    exact absurd hok (by simp)
  · have h1 : (encInputToken d idx).length + 2 ≤ d.seqLen := by omega
    have h2 : (decInputToken d idx).length + 1 ≤ d.seqLen := by omega
    refine ⟨h1, h2, ?_⟩
    have := getItem_ok_eq d idx h1 h2
    rw [this] at hok
    exact (Except.ok.inj hok).symm

/-! ## Claims -/

/-- C1 (code evaluation at the failing input): dataset.py line 30 reads
`dec_input_token = self.tokenizer_src.encode(tgt_text).ids`, so the target
text is tokenized with the source vocabulary.  On `dsEx`, where the two
vocabularies encode the target text differently, the decoder token sequence
used to build the tensors is the source vocabulary's `[9]`, not the target
vocabulary's `[6,7,8]`, and `decoder_input` is built from it. -/
theorem c1_target_text_tokenized_with_source_vocab :
    decInputToken dsEx 0 = vocabSrcEx.encode (tgtTextOf dsEx 0)
    ∧ decInputToken dsEx 0 = [9]
    ∧ vocabTgtEx.encode (tgtTextOf dsEx 0) = [6, 7, 8]
    ∧ decInputToken dsEx 0 ≠ vocabTgtEx.encode (tgtTextOf dsEx 0)
    ∧ (∃ ex, getItem dsEx 0 = Except.ok ex
        ∧ ex.decoderInput = [1, 9, 0, 0, 0, 0, 0, 0, 0, 0]) := by
  refine ⟨rfl, rfl, rfl, by decide, ⟨_, getItem_ok_eq dsEx 0 (by decide) (by decide), ?_⟩⟩
  rfl

/-- C2: whenever `len(enc_input_token) + 2 ≤ seq_len` and
`len(dec_input_token) + 1 ≤ seq_len`, `__getitem__` succeeds and returns
`encoder_input = [SOS] ++ src_tokens ++ [EOS] ++ PAD×k1`,
`decoder_input = [SOS] ++ tgt_tokens ++ PAD×k2` and
`label = tgt_tokens ++ [EOS] ++ PAD×k2`, with `k1 = seq_len - len - 2`,
`k2 = seq_len - len - 1`, each of length exactly `seq_len` (the token
sequences here being the ones the code computes at dataset.py lines 29-30). -/
theorem c2_fixed_layout (d : BilingualDataset) (idx : Nat)
    (h1 : (encInputToken d idx).length + 2 ≤ d.seqLen)
    (h2 : (decInputToken d idx).length + 1 ≤ d.seqLen) :
    ∃ ex, getItem d idx = Except.ok ex
      ∧ ex.encoderInput = [d.sosToken] ++ encInputToken d idx ++ [d.eosToken] ++
          List.replicate (d.seqLen - (encInputToken d idx).length - 2) d.padToken
      ∧ ex.decoderInput = [d.sosToken] ++ decInputToken d idx ++
          List.replicate (d.seqLen - (decInputToken d idx).length - 1) d.padToken
      ∧ ex.label = decInputToken d idx ++ [d.eosToken] ++
          List.replicate (d.seqLen - (decInputToken d idx).length - 1) d.padToken
      ∧ ex.encoderInput.length = d.seqLen
      ∧ ex.decoderInput.length = d.seqLen
      ∧ ex.label.length = d.seqLen := by
  refine ⟨_, getItem_ok_eq d idx h1 h2, rfl, rfl, rfl, ?_, ?_, ?_⟩ <;>
    simp only [List.length_append, List.length_replicate, List.length_cons,
      List.length_nil] <;> omega

/-- C2 witness: the spec's concrete scenario A (`seq_len = 10`, source tokens
`[4,5]`, target tokens `[6,7,8]`, SOS=1, EOS=2, PAD=0). -/
theorem c2_fixed_layout_witness :
    (encInputToken dsA 0).length + 2 ≤ dsA.seqLen
    ∧ (decInputToken dsA 0).length + 1 ≤ dsA.seqLen
    ∧ (∃ ex, getItem dsA 0 = Except.ok ex
        ∧ ex.encoderInput = [dsA.sosToken] ++ encInputToken dsA 0 ++ [dsA.eosToken] ++
            List.replicate (dsA.seqLen - (encInputToken dsA 0).length - 2) dsA.padToken
        ∧ ex.decoderInput = [dsA.sosToken] ++ decInputToken dsA 0 ++
            List.replicate (dsA.seqLen - (decInputToken dsA 0).length - 1) dsA.padToken
        ∧ ex.label = decInputToken dsA 0 ++ [dsA.eosToken] ++
            List.replicate (dsA.seqLen - (decInputToken dsA 0).length - 1) dsA.padToken
        ∧ ex.encoderInput.length = dsA.seqLen
        ∧ ex.decoderInput.length = dsA.seqLen
        ∧ ex.label.length = dsA.seqLen)
    ∧ ([dsA.sosToken] ++ encInputToken dsA 0 ++ [dsA.eosToken] ++
        List.replicate (dsA.seqLen - (encInputToken dsA 0).length - 2) dsA.padToken
          = [1, 4, 5, 2, 0, 0, 0, 0, 0, 0]) :=
  ⟨by decide, by decide, c2_fixed_layout dsA 0 (by decide) (by decide), by decide⟩

/-- C3: for every successfully encoded example and all `i, j < seq_len`,
`encoder_mask[0,0,j]` is 1 iff `encoder_input[j] != PAD`, and
`decoder_mask[0,i,j]` is 1 iff `decoder_input[j] != PAD` and `j ≤ i` (the
element-wise AND of the non-pad mask with the inclusive causal mask). -/
theorem c3_mask_algebra (d : BilingualDataset) (idx : Nat) (ex : EncodedExample)
    (hok : getItem d idx = Except.ok ex) (i j : Nat)
    (hi : i < d.seqLen) (hj : j < d.seqLen) :
    (((ex.encoderMask.getD 0 []).getD 0 []).getD j 0 = 1
      ↔ ex.encoderInput.getD j 0 ≠ d.padToken)
    ∧ (((ex.decoderMask.getD 0 []).getD i []).getD j 0 = 1
      ↔ (ex.decoderInput.getD j 0 ≠ d.padToken ∧ j ≤ i)) := by
  obtain ⟨h1, h2, hex⟩ := getItem_ok_inv d idx ex hok
  have hlenE : ex.encoderInput.length = d.seqLen := by
    rw [hex]
    simp only [List.length_append, List.length_replicate, List.length_cons, List.length_nil]
    omega
  have hlenD : ex.decoderInput.length = d.seqLen := by
    rw [hex]
    simp only [List.length_append, List.length_replicate, List.length_cons, List.length_nil]
    omega
  have hmE : ex.encoderMask = encoderMaskOf ex.encoderInput d.padToken := by
    rw [hex]
  have hmD : ex.decoderMask = decoderMaskOf ex.decoderInput d.padToken := by
    rw [hex]
  constructor
  · rw [hmE, encoderMaskOf_entry ex.encoderInput d.padToken j (by omega)]
    by_cases hp : ex.encoderInput.getD j 0 ≠ d.padToken
    · rw [if_pos hp]
      exact iff_of_true rfl hp
    · rw [if_neg hp]
      exact iff_of_false (by simp) hp
  · rw [hmD, decoderMaskOf_entry ex.decoderInput d.padToken i j (by omega) (by omega)]
    by_cases hp : ex.decoderInput.getD j 0 ≠ d.padToken ∧ j ≤ i
    · rw [if_pos hp]
      exact iff_of_true rfl hp
    · rw [if_neg hp]
      exact iff_of_false (by simp) hp

/-- C3 witness: scenario A, querying `i = 2`, `j = 3` of the decoder mask and
`j = 3` of the encoder mask. -/
theorem c3_mask_algebra_witness :
    getItem dsA 0 = Except.ok exA
    ∧ ((((exA.encoderMask.getD 0 []).getD 0 []).getD 3 0 = 1
        ↔ exA.encoderInput.getD 3 0 ≠ dsA.padToken)
      ∧ (((exA.decoderMask.getD 0 []).getD 2 []).getD 3 0 = 1
        ↔ (exA.decoderInput.getD 3 0 ≠ dsA.padToken ∧ 3 ≤ 2))) :=
  ⟨rfl, c3_mask_algebra dsA 0 exA rfl 2 3 (by decide) (by decide)⟩

/-- C4: `__getitem__` fails with the `ValueError` (the spec's
`SequenceTooLongError`) iff `len(src_tokens) + 2 > seq_len` or
`len(tgt_tokens) + 1 > seq_len`; whenever neither holds — in particular at
exact equality — it succeeds.  The failure is modelled as the `Except.error`
result of the whole construction: a fatal error, not a warning. -/
theorem c4_sequence_too_long_iff (d : BilingualDataset) (idx : Nat) :
    (getItem d idx = Except.error EncodeError.sentenceTooLong
      ↔ (encInputToken d idx).length + 2 > d.seqLen
        ∨ (decInputToken d idx).length + 1 > d.seqLen)
    ∧ ((encInputToken d idx).length + 2 ≤ d.seqLen
        → (decInputToken d idx).length + 1 ≤ d.seqLen
        → ∃ ex, getItem d idx = Except.ok ex) := by
  constructor
  · exact getItem_error_iff d idx
  · intro h1 h2
    exact ⟨_, getItem_ok_eq d idx h1 h2⟩

/-- C4 witness: `dsB` sits exactly at the boundary (`k1 = k2 = 0`) and
succeeds; `dsC` overflows and raises. -/
theorem c4_sequence_too_long_iff_witness :
    (encInputToken dsB 0).length + 2 ≤ dsB.seqLen
    ∧ (decInputToken dsB 0).length + 1 ≤ dsB.seqLen
    ∧ (∃ ex, getItem dsB 0 = Except.ok ex)
    ∧ dsC.seqLen < (encInputToken dsC 0).length + 2
    ∧ getItem dsC 0 = Except.error EncodeError.sentenceTooLong :=
  ⟨by decide, by decide,
    (c4_sequence_too_long_iff dsB 0).2 (by decide) (by decide),
    by decide,
    (c4_sequence_too_long_iff dsC 0).1.mpr (Or.inl (by decide))⟩

/-- C9: all three reserved special ids come from the target vocabulary
(dataset.py lines 17-19), so the target vocabulary's PAD id both pads
`encoder_input` (whose tokens come from the source vocabulary) and is the id
the encoder mask compares against. -/
theorem c9_special_tokens_from_target_vocab (ds : List (String → String))
    (ts tt : Tokenizer) (sl tl : String) (L : Nat) :
    (mkBilingualDataset ds ts tt sl tl L).sosToken = tt.tokenToId "[SOS]"
    ∧ (mkBilingualDataset ds ts tt sl tl L).eosToken = tt.tokenToId "[EOS]"
    ∧ (mkBilingualDataset ds ts tt sl tl L).padToken = tt.tokenToId "[PAD]"
    ∧ ∀ idx ex, getItem (mkBilingualDataset ds ts tt sl tl L) idx = Except.ok ex →
        (∀ j, (encInputToken (mkBilingualDataset ds ts tt sl tl L) idx).length + 2 ≤ j
          → j < L → ex.encoderInput.getD j 0 = tt.tokenToId "[PAD]")
        ∧ (∀ j, j < L →
            (((ex.encoderMask.getD 0 []).getD 0 []).getD j 0 = 1
              ↔ ex.encoderInput.getD j 0 ≠ tt.tokenToId "[PAD]")) := by
  refine ⟨rfl, rfl, rfl, ?_⟩
  intro idx ex hok
  obtain ⟨h1, h2, hex⟩ := getItem_ok_inv _ idx ex hok
  have hL : (mkBilingualDataset ds ts tt sl tl L).seqLen = L := rfl
  constructor
  · intro j hjlo hjhi
    rw [hex]
    exact getD_append3_replicate _ _ _ _ _ j hjlo (by omega)
  · intro j hj
    have hmask := c3_mask_algebra _ idx ex hok 0 j (by omega)
      (show j < (mkBilingualDataset ds ts tt sl tl L).seqLen from hj)
    exact hmask.1

/-- C9 witness: in scenario A the padding position 4 of `encoder_input` holds
the target vocabulary's PAD id, even though positions 1-2 hold source-vocab
token ids. -/
theorem c9_special_tokens_from_target_vocab_witness :
    getItem dsA 0 = Except.ok exA
    ∧ exA.encoderInput.getD 4 0 = vocabTgtEx.tokenToId "[PAD]"
    ∧ ((((exA.encoderMask.getD 0 []).getD 0 []).getD 4 0 = 1
        ↔ exA.encoderInput.getD 4 0 ≠ vocabTgtEx.tokenToId "[PAD]")) :=
  ⟨rfl,
    ((c9_special_tokens_from_target_vocab [itemEx] vocabSrcA vocabTgtEx "en" "fr" 10).2.2.2
      0 exA rfl).1 4 (by decide) (by decide),
    ((c9_special_tokens_from_target_vocab [itemEx] vocabSrcA vocabTgtEx "en" "fr" 10).2.2.2
      0 exA rfl).2 4 (by decide)⟩

/-- C5: with a preload request whose resolved checkpoint exists, the loop
enters with `initial_epoch = state.epoch + 1` (so the checkpoint's own epoch
is never re-executed and, when room remains, `epoch + 1` is executed first),
`global_step` equal to the stored value, and the restored model/optimizer
parameters; when the checkpoint is not found it continues from the defaults
`epoch = 0`, `global_step = 0` without failing. -/
theorem c5_checkpoint_resume {M O : Type} (s : CheckpointRecord M O) (gs : Nat)
    (freshM : M) (freshO : O) (numEpochs : Nat) (hgs : s.globalStep = some gs) :
    (trainInit true (some s) freshM freshO).initialEpoch = s.epoch + 1
    ∧ (trainInit true (some s) freshM freshO).globalStep = gs
    ∧ (trainInit true (some s) freshM freshO).modelParams = s.modelStateDict
    ∧ (trainInit true (some s) freshM freshO).optimizerParams = s.optimizerStateDict
    ∧ s.epoch ∉ pyRange (trainInit true (some s) freshM freshO).initialEpoch numEpochs
    ∧ (s.epoch + 1 < numEpochs →
        (pyRange (trainInit true (some s) freshM freshO).initialEpoch numEpochs).head?
          = some (s.epoch + 1))
    ∧ trainInit (M := M) (O := O) true none freshM freshO
        = { initialEpoch := 0, globalStep := 0, modelParams := freshM, optimizerParams := freshO } := by
  refine ⟨rfl, by simp [trainInit, hgs], rfl, rfl, ?_, ?_, rfl⟩
  · show s.epoch ∉ List.range' (s.epoch + 1) (numEpochs - (s.epoch + 1))
    rw [List.mem_range'_1]
    omega
  · intro hlt
    show (List.range' (s.epoch + 1) (numEpochs - (s.epoch + 1))).head? = some (s.epoch + 1)
    obtain ⟨k, hk⟩ : ∃ k, numEpochs - (s.epoch + 1) = k + 1 :=
      ⟨numEpochs - (s.epoch + 1) - 1, by omega⟩
    rw [hk]
    rfl

/-- C5 witness: resuming from epoch 3, step 42 with 10 total epochs. -/
theorem c5_checkpoint_resume_witness :
    (⟨3, some 42, 7, 8⟩ : CheckpointRecord Nat Nat).globalStep = some 42
    ∧ ((trainInit true (some (⟨3, some 42, 7, 8⟩ : CheckpointRecord Nat Nat)) 0 0).initialEpoch
        = 3 + 1
      ∧ (trainInit true (some (⟨3, some 42, 7, 8⟩ : CheckpointRecord Nat Nat)) 0 0).globalStep
        = 42
      ∧ (pyRange (trainInit true (some (⟨3, some 42, 7, 8⟩ : CheckpointRecord Nat Nat)) 0 0).initialEpoch
          10).head? = some (3 + 1)) :=
  ⟨rfl,
    (c5_checkpoint_resume (⟨3, some 42, 7, 8⟩ : CheckpointRecord Nat Nat) 42 0 0 10 rfl).1,
    (c5_checkpoint_resume (⟨3, some 42, 7, 8⟩ : CheckpointRecord Nat Nat) 42 0 0 10 rfl).2.1,
    (c5_checkpoint_resume (⟨3, some 42, 7, 8⟩ : CheckpointRecord Nat Nat) 42 0 0 10 rfl).2.2.2.2.2.1
      (by decide)⟩

/-- C10: a checkpoint record with an `epoch` field but no `global_step` field
still resumes — the loop enters at `epoch + 1` and `global_step` defaults to 0
(`state.get('global_step', 0)`, train.py line 109) — rather than failing. -/
theorem c10_missing_global_step_defaults {M O : Type} (e : Nat) (m : M) (o : O)
    (freshM : M) (freshO : O) (numEpochs : Nat) :
    trainInit true (some ⟨e, none, m, o⟩) freshM freshO
      = { initialEpoch := e + 1, globalStep := 0, modelParams := m, optimizerParams := o }
    ∧ (pyRange (trainInit true (some ⟨e, none, m, o⟩) freshM freshO).initialEpoch numEpochs).head?
      = if e + 1 < numEpochs then some (e + 1) else none := by
  refine ⟨rfl, ?_⟩
  show (List.range' (e + 1) (numEpochs - (e + 1))).head? = _
  by_cases h : e + 1 < numEpochs
  · rw [if_pos h]
    obtain ⟨k, hk⟩ : ∃ k, numEpochs - (e + 1) = k + 1 := ⟨numEpochs - (e + 1) - 1, by omega⟩
    rw [hk]
    rfl
  · rw [if_neg h]
    have hz : numEpochs - (e + 1) = 0 := by omega
    rw [hz]
    rfl

/-- C6 counterexample: at corpus length 15, the code's train size
`int(0.9 * 15)` truncates `13.5` to `13`, while the claim's
`round(train_fraction * len)` is `14`; so the claimed sizes are wrong. -/
theorem c6_round_counterexample :
    trainDsSize 15 = 13 ∧ round ((9 : ℚ) / 10 * 15) = 14
    ∧ (trainDsSize 15 : ℤ) ≠ round ((9 : ℚ) / 10 * 15) := by
  have h1 : trainDsSize 15 = 13 := by
    unfold trainDsSize
    norm_num [Int.floor_eq_iff]
    rfl
  have h2 : round ((9 : ℚ) / 10 * 15) = 14 := by
    rw [round_eq]
    norm_num [Int.floor_eq_iff]
  refine ⟨h1, h2, ?_⟩
  rw [h1, h2]
  decide

/-- C6 amended: `split` partitions the corpus indices into disjoint and
exhaustive train/validation subsets whose sizes are `⌊train_fraction · len⌋`
(truncation, as `int(0.9 * len)` computes — not rounding) and the remainder. -/
theorem c6_split_partition (n : Nat) (perm : List Nat)
    (hperm : perm.Perm (List.range n)) :
    (getDsSplit n perm).1.length = trainDsSize n
    ∧ (getDsSplit n perm).2.length = valDsSize n
    ∧ (getDsSplit n perm).1.Disjoint (getDsSplit n perm).2
    ∧ ((getDsSplit n perm).1 ++ (getDsSplit n perm).2).Perm (List.range n) := by
  have hlen : perm.length = n := by
    rw [hperm.length_eq, List.length_range]
  have hts : trainDsSize n ≤ n := by
    have hq : (9 : ℚ) / 10 * n ≤ (n : ℚ) := by
      have h0 : (0 : ℚ) ≤ (n : ℚ) := Nat.cast_nonneg n
      nlinarith
    have hfloor : ⌊(9 : ℚ) / 10 * n⌋ ≤ (n : ℤ) := by
      calc ⌊(9 : ℚ) / 10 * n⌋ ≤ ⌊(n : ℚ)⌋ := Int.floor_le_floor hq
        _ = n := Int.floor_natCast n
    exact Int.toNat_le.mpr hfloor
  have hnodup : perm.Nodup := (hperm.nodup_iff).mpr (List.nodup_range n)
  refine ⟨?_, ?_, ?_, ?_⟩
  · show (perm.take (trainDsSize n)).length = trainDsSize n
    rw [List.length_take, hlen]
    omega
  · show (perm.drop (trainDsSize n)).length = valDsSize n
    rw [List.length_drop, hlen]
    rfl
  · exact List.disjoint_take_drop hnodup le_rfl
  · show (perm.take (trainDsSize n) ++ perm.drop (trainDsSize n)).Perm (List.range n)
    rw [List.take_append_drop]
    exact hperm

/-- C6 witness: the identity permutation on a corpus of 10 examples splits
into 9 train and 1 validation indices. -/
theorem c6_split_partition_witness :
    (List.range 10).Perm (List.range 10)
    ∧ (getDsSplit 10 (List.range 10)).1.length = trainDsSize 10
    ∧ (getDsSplit 10 (List.range 10)).2.length = valDsSize 10
    ∧ trainDsSize 10 = 9 :=
  ⟨List.Perm.refl _,
    (c6_split_partition 10 (List.range 10) (List.Perm.refl _)).1,
    (c6_split_partition 10 (List.range 10) (List.Perm.refl _)).2.1,
    by
      unfold trainDsSize
      norm_num [Int.floor_eq_iff]
      rfl⟩

theorem undigit_digitChar (a : Nat) (h : a < 10) : undigit (Nat.digitChar a) = a := by
  interval_cases a <;> rfl

theorem ofDigits_replicate_zero (b k : Nat) : Nat.ofDigits b (List.replicate k 0) = 0 := by
  induction k with
  | zero => simp
  | succ k ih =>
      rw [List.replicate_succ, Nat.ofDigits_cons, ih]
      simp

theorem fmt02dDigits_lt_ten (n : Nat) : ∀ d ∈ fmt02dDigits n, d < 10 := by
  intro d hd
  dsimp only [fmt02dDigits] at hd
  rcases List.mem_append.mp hd with h | h
  · rw [List.eq_of_mem_replicate h]
    omega
  · by_cases h0 : n = 0
    · rw [if_pos h0] at h
      simp at h
      omega
    · rw [if_neg h0] at h
      dsimp only [digitsBE] at h
      rw [List.mem_reverse] at h
      exact Nat.digits_lt_base (by omega) h

theorem ofDigits_reverse_fmt02dDigits (n : Nat) :
    Nat.ofDigits 10 (fmt02dDigits n).reverse = n := by
  by_cases h0 : n = 0
  · subst h0
    rfl
  · dsimp only [fmt02dDigits, digitsBE]
    rw [if_neg h0]
    rw [List.reverse_append, List.reverse_replicate, List.reverse_reverse]
    rw [Nat.ofDigits_append, Nat.ofDigits_digits, ofDigits_replicate_zero]
    simp

theorem fmt02dDigits_inj (n1 n2 : Nat) (h : fmt02dDigits n1 = fmt02dDigits n2) : n1 = n2 := by
  rw [← ofDigits_reverse_fmt02dDigits n1, ← ofDigits_reverse_fmt02dDigits n2, h]

theorem map_digitChar_inj (l1 l2 : List Nat) (h1 : ∀ d ∈ l1, d < 10) (h2 : ∀ d ∈ l2, d < 10)
    (h : l1.map Nat.digitChar = l2.map Nat.digitChar) : l1 = l2 := by
  have e1 : (l1.map Nat.digitChar).map undigit = l1 := by
    rw [List.map_map]
    calc l1.map (undigit ∘ Nat.digitChar) = l1.map id :=
          List.map_congr_left (fun d hd => undigit_digitChar d (h1 d hd))
      _ = l1 := List.map_id l1
  have e2 : (l2.map Nat.digitChar).map undigit = l2 := by
    rw [List.map_map]
    calc l2.map (undigit ∘ Nat.digitChar) = l2.map id :=
          List.map_congr_left (fun d hd => undigit_digitChar d (h2 d hd))
      _ = l2 := List.map_id l2
  rw [← e1, ← e2, h]

theorem fmt02d_inj (n1 n2 : Nat) (h : fmt02d n1 = fmt02d n2) : n1 = n2 := by
  apply fmt02dDigits_inj
  apply map_digitChar_inj _ _ (fmt02dDigits_lt_ten n1) (fmt02dDigits_lt_ten n2)
  exact congrArg String.data h

theorem ckptFilePath_inj (dsrc mf mb : String) (e1 e2 : Nat)
    (h : ckptFilePath dsrc mf mb e1 = ckptFilePath dsrc mf mb e2) : e1 = e2 := by
  apply fmt02d_inj
  have hd := congrArg String.data h
  simp only [ckptFilePath, String.data_append, List.append_assoc] at hd
  have h1 := List.append_cancel_left hd
  have h2 := List.append_cancel_left h1
  have h3 := List.append_cancel_left h2
  have h4 := List.append_cancel_left h3
  have h5 := List.append_cancel_left h4
  exact String.ext (List.append_cancel_right h5)

theorem runEpochs_spec {M O β : Type} (dsrc mf mb : String) (step : β → M → O → M × O)
    (batches : List β) :
    ∀ (es : List Nat) (m : M) (o : O) (gs : Nat),
      (runEpochs dsrc mf mb step batches es m o gs).map Prod.fst
          = es.map (ckptFilePath dsrc mf mb)
      ∧ (runEpochs dsrc mf mb step batches es m o gs).map (fun w => w.2.epoch) = es
      ∧ ∀ w ∈ runEpochs dsrc mf mb step batches es m o gs,
          w.1 = ckptFilePath dsrc mf mb w.2.epoch ∧ w.2.globalStep.isSome = true := by
  intro es
  induction es with
  | nil =>
      intro m o gs
      refine ⟨rfl, rfl, ?_⟩
      intro w hw
      exact absurd hw (List.not_mem_nil w)
  | cons e rest ih =>
      intro m o gs
      simp only [runEpochs, List.map_cons]
      refine ⟨?_, ?_, ?_⟩
      · rw [(ih _ _ _).1]
      · rw [(ih _ _ _).2.1]
      · intro w hw
        rcases List.mem_cons.mp hw with hw | hw
        · subst hw
          exact ⟨rfl, rfl⟩
        · exact (ih _ _ _).2.2 w hw

/-- C7 counterexample: the claim's path omits the `".pt"` suffix the code
appends (train.py line 152).  For `datasource = "opus_books"`,
`model_folder = "weights"`, `model_basename = "tmodel_"`, epoch 3 the file is
`"opus_books_weights/tmodel_03.pt"`, not `"opus_books_weights/tmodel_03"`. -/
theorem c7_path_counterexample :
    ckptFilePath "opus_books" "weights" "tmodel_" 3 = "opus_books_weights/tmodel_03.pt"
    ∧ ckptFilePath "opus_books" "weights" "tmodel_" 3 ≠ "opus_books_weights/tmodel_03" := by
  have hfmt : fmt02d 3 = "03" := by
    have hdig : Nat.digits 10 3 = [3] := by norm_num
    unfold fmt02d fmt02dDigits digitsBE
    rw [if_neg (by decide : ¬ (3 : Nat) = 0), hdig]
    rfl
  have hpath : ckptFilePath "opus_books" "weights" "tmodel_" 3
      = "opus_books_weights/tmodel_03.pt" := by
    unfold ckptFilePath
    rw [hfmt]
    rfl
  refine ⟨hpath, ?_⟩
  rw [hpath]
  decide

/-- C7 amended: at the end of every executed epoch, unconditionally, a record
with exactly the fields `{epoch, global_step, model_state_dict,
optimizer_state_dict}` is written to
`{datasource}_{model_folder}/{model_basename}{epoch:02d}.pt`; the write paths
of distinct epochs are pairwise distinct, so prior checkpoints are never
deleted or overwritten. -/
theorem c7_checkpoint_every_epoch {M O β : Type} (datasource modelFolder modelBasename : String)
    (numEpochs : Nat) (step : β → M → O → M × O) (batches : List β) (init : TrainInit M O) :
    (trainModelWrites datasource modelFolder modelBasename numEpochs step batches init).map
        Prod.fst
      = (pyRange init.initialEpoch numEpochs).map
          (ckptFilePath datasource modelFolder modelBasename)
    ∧ (trainModelWrites datasource modelFolder modelBasename numEpochs step batches init).map
        (fun w => w.2.epoch)
      = pyRange init.initialEpoch numEpochs
    ∧ (∀ w ∈ trainModelWrites datasource modelFolder modelBasename numEpochs step batches init,
        w.1 = ckptFilePath datasource modelFolder modelBasename w.2.epoch
        ∧ w.2.globalStep.isSome = true)
    ∧ ((trainModelWrites datasource modelFolder modelBasename numEpochs step batches init).map
        Prod.fst).Nodup := by
  have hs := runEpochs_spec datasource modelFolder modelBasename step batches
    (pyRange init.initialEpoch numEpochs) init.modelParams init.optimizerParams init.globalStep
  refine ⟨hs.1, hs.2.1, hs.2.2, ?_⟩
  have hrw : (trainModelWrites datasource modelFolder modelBasename numEpochs step batches
      init).map Prod.fst
      = (pyRange init.initialEpoch numEpochs).map
          (ckptFilePath datasource modelFolder modelBasename) := hs.1
  rw [hrw]
  apply List.Nodup.map
  · intro a b hab
    exact ckptFilePath_inj _ _ _ _ _ hab
  · show (List.range' init.initialEpoch (numEpochs - init.initialEpoch)).Nodup
    exact List.nodup_range' _ _

/-- C7 witness: a two-epoch run from scratch writes the epoch-00 and epoch-01
files, with distinct paths. -/
theorem c7_checkpoint_every_epoch_witness :
    (trainModelWrites (β := Unit) "opus_books" "weights" "tmodel_" 2
        (fun _ m o => (m, o)) [] (⟨0, 0, 0, 0⟩ : TrainInit Nat Nat)).map Prod.fst
      = (pyRange 0 2).map (ckptFilePath "opus_books" "weights" "tmodel_")
    ∧ ((trainModelWrites (β := Unit) "opus_books" "weights" "tmodel_" 2
        (fun _ m o => (m, o)) [] (⟨0, 0, 0, 0⟩ : TrainInit Nat Nat)).map Prod.fst).Nodup :=
  ⟨(c7_checkpoint_every_epoch "opus_books" "weights" "tmodel_" 2 (fun _ m o => (m, o)) []
      (⟨0, 0, 0, 0⟩ : TrainInit Nat Nat)).1,
    (c7_checkpoint_every_epoch "opus_books" "weights" "tmodel_" 2 (fun _ m o => (m, o)) []
      (⟨0, 0, 0, 0⟩ : TrainInit Nat Nat)).2.2.2⟩

theorem listSumRange (n : Nat) (f : Nat → ℚ) :
    ((List.range n).map f).sum = ∑ j ∈ Finset.range n, f j := by
  induction n with
  | zero => rfl
  | succ n ih =>
      rw [List.range_succ, List.map_append, List.sum_append, Finset.sum_range_succ, ih]
      simp

theorem smoothed_dot (ε : ℚ) (C y : Nat) (x : Nat → ℚ) (hy : y < C) :
    ((List.range C).map (fun j => smoothedWeight ε C y j * x j)).sum
      = (1 - ε) * x y + ε / C * ((List.range C).map x).sum := by
  rw [listSumRange, listSumRange]
  have hsplit : ∀ j ∈ Finset.range C,
      smoothedWeight ε C y j * x j
        = (1 - ε) * (if j = y then x j else 0) + ε / C * x j := by
    intro j _
    unfold smoothedWeight
    by_cases h : j = y
    · rw [if_pos h, if_pos h]
      ring
    · rw [if_neg h, if_neg h]
      ring
  rw [Finset.sum_congr rfl hsplit, Finset.sum_add_distrib, ← Finset.mul_sum, ← Finset.mul_sum,
    Finset.sum_ite_eq' (Finset.range C) y x, if_pos (Finset.mem_range.mpr hy)]

/-- C8: the training loss is cross-entropy over the row-major flattened
positions, in which every position whose label equals the target vocabulary's
PAD id is excluded from both the summed losses and the averaging denominator,
and label smoothing 0.1 distributes the per-position target mass as `9/10` on
the label class and `(1/10)/C` uniformly over all `C` classes. -/
theorem c8_loss_ignores_pad_smoothing (tok : Tokenizer) (C : Nat) (logp : Nat → Nat → ℚ)
    (labels : List (List Nat))
    (hC : ∀ p ∈ labels.flatten.enum, p.2 ≠ tok.tokenToId "[PAD]" → p.2 < C) :
    trainLoss tok C logp labels
      = ((labels.flatten.enum.filter (fun p => decide (p.2 ≠ tok.tokenToId "[PAD]"))).map
          (fun p => (1 - 1/10 : ℚ) * (-(logp p.1 p.2))
            + (1/10 : ℚ) / C * ((List.range C).map (fun j => -(logp p.1 j))).sum)).sum
        / (labels.flatten.enum.filter (fun p => decide (p.2 ≠ tok.tokenToId "[PAD]"))).length := by
  dsimp only [trainLoss, crossEntropyMean]
  congr 1
  refine congrArg List.sum (List.map_congr_left ?_)
  intro p hp
  have hmem : p ∈ labels.flatten.enum := (List.mem_filter.mp hp).1
  have hne : p.2 ≠ tok.tokenToId "[PAD]" := of_decide_eq_true (List.mem_filter.mp hp).2
  have hy : p.2 < C := hC p hmem hne
  rw [smoothed_dot (1/10) C p.2 (logp p.1) hy]
  have hneg : ((List.range C).map (fun j => -(logp p.1 j))).sum
      = -((List.range C).map (logp p.1)).sum := by
    rw [listSumRange, listSumRange]
    exact Finset.sum_neg_distrib
  rw [hneg]
  ring

/-- C8 witness: two flattened positions with labels `[0, 2]`; the PAD-labelled
position 0 is excluded, position 1 (label 2 < 3) is kept. -/
theorem c8_loss_ignores_pad_smoothing_witness :
    (∀ p ∈ ([[0, 2]] : List (List Nat)).flatten.enum,
        p.2 ≠ vocabTgtEx.tokenToId "[PAD]" → p.2 < 3)
    ∧ trainLoss vocabTgtEx 3 (fun n j => -(n + j + 1 : ℚ)) [[0, 2]]
      = ((([[0, 2]] : List (List Nat)).flatten.enum.filter
            (fun p => decide (p.2 ≠ vocabTgtEx.tokenToId "[PAD]"))).map
          (fun p => (1 - 1/10 : ℚ) * (-((fun n j => -(n + j + 1 : ℚ)) p.1 p.2))
            + (1/10 : ℚ) / 3 *
              ((List.range 3).map (fun j => -((fun n j => -(n + j + 1 : ℚ)) p.1 j))).sum)).sum
        / (([[0, 2]] : List (List Nat)).flatten.enum.filter
            (fun p => decide (p.2 ≠ vocabTgtEx.tokenToId "[PAD]"))).length :=
  ⟨by decide,
    c8_loss_ignores_pad_smoothing vocabTgtEx 3 (fun n j => -(n + j + 1 : ℚ)) [[0, 2]]
      (by decide)⟩

end Transformer
